import Mathlib

/-!
Shallow embedding of `src/data/schema.rs` from the graph-node schema-processing
core, together with proofs settling the specification claims about it.

Rust conventions are modelled as follows: `Option<T>` is `Option`, a fallible
`Result<T, E>` is `Except E T`, and a computation that may additionally panic
(`unwrap()` on `None`/`Err`, or a `todo!()` body) returns `RunResult E T`, whose
`panic` constructor records the panic message. `HashMap`/`BTreeMap` values are
association lists, `HashSet` collection is the list of collected elements in
collection order.
-/

namespace SchemaRs

/-- Outcome of running a Rust expression of type `Result<A, E>` that may also
panic: `ok` for `Ok`, `error` for `Err`, and `panic` when an `unwrap()` fails
or a `todo!()` is reached. -/
inductive RunResult (ε : Type) (α : Type) where
  | ok (a : α)
  | error (e : ε)
  | panic (msg : String)
deriving DecidableEq, Repr

/-- Sequencing of panicking computations: Rust's `?`/method chaining. -/
def RunResult.bind {ε α β : Type} : RunResult ε α → (α → RunResult ε β) → RunResult ε β
  | .ok a, f => f a
  | .error e, _ => .error e
  | .panic m, _ => .panic m

instance {ε : Type} : Monad (RunResult ε) where
  pure := .ok
  bind := RunResult.bind

/-- Rust `Option::unwrap()`: yields the value or panics. -/
def unwrap {ε α : Type} : Option α → RunResult ε α
  | some a => .ok a
  | none => .panic "called Option::unwrap on a None value"

/-- Rust `Result::unwrap()`: yields the value or panics with the error text. -/
def unwrapResult {ε α : Type} : Except String α → RunResult ε α
  | .ok a => .ok a
  | .error m => .panic m

/-- GraphQL query-language value (`q::Value` of graphql_parser) as consumed by
`schema.rs`: variables, scalars, enum tokens, lists and objects. The float
payload is kept abstract as its printed form; no function here inspects it. -/
inductive Value where
  | var (name : String)
  | int (i : Int)
  | float (repr : String)
  | string (s : String)
  | boolean (b : Bool)
  | null
  | enum (n : String)
  | list (values : List Value)
  | object (fields : List (String × Value))

/-- Modelled from the spec: `ValueExt::as_str` (declared outside this fragment)
projects a string value, and nothing else. -/
def Value.as_str : Value → Option String
  | .string s => some s
  | _ => none

/-- Modelled from the spec: `ValueExt::as_enum` projects an enum token. -/
def Value.as_enum : Value → Option String
  | .enum n => some n
  | _ => none

/-- Modelled from the spec: `ValueExt::as_list` projects a list value. -/
def Value.as_list : Value → Option (List Value)
  | .list vs => some vs
  | _ => none

/-- Modelled from the spec: `ValueExt::as_object` projects the field map of an
object value. -/
def Value.as_object : Value → Option (List (String × Value))
  | .object fs => some fs
  | _ => none

/-- A directive occurrence `@name(arg: value, ...)` from the declaration tree. -/
structure Directive where
  name : String
  arguments : List (String × Value)

/-- Modelled from the spec: `DirectiveExt::argument` (declared outside this
fragment) looks up an argument of the directive by name. -/
def Directive.argument (self : Directive) (name : String) : Option Value :=
  self.arguments.lookup name

/-- The two legal fulltext search algorithms (`FulltextAlgorithm`). -/
inductive FulltextAlgorithm where
  | Rank
  | ProximityRank
deriving DecidableEq, Repr

/-- `TryFrom<&str> for FulltextAlgorithm`: the string-literal match of the
source, written as the equivalent equality chain. -/
def FulltextAlgorithm.tryFrom (algorithm : String) : Except String FulltextAlgorithm :=
  if algorithm = "rank" then .ok .Rank
  else if algorithm = "proximityRank" then .ok .ProximityRank
  else .error ("The provided fulltext search algorithm " ++ algorithm ++
    " is invalid. It must be one of: rank, proximityRank")

/-- `FulltextConfig`: the `language` field is the reserved unit placeholder. -/
structure FulltextConfig where
  language : Unit
  algorithm : FulltextAlgorithm
deriving DecidableEq, Repr

/-- `FulltextDefinition`: one full-text search index extracted from a
`@fulltext` directive. -/
structure FulltextDefinition where
  config : FulltextConfig
  included_fields : List String
  name : String
deriving DecidableEq, Repr

/-- The per-field part of `From<&s::Directive> for FulltextDefinition`: for each
entry of the `fields` list, `field.as_object().unwrap().get("name").unwrap().as_str().unwrap()`,
collected in order. -/
def collectIncludedFields : List Value → RunResult String (List String)
  | [] => pure []
  | field :: rest => do
    let obj ← unwrap field.as_object
    let nameValue ← unwrap (obj.lookup "name")
    let s ← unwrap nameValue.as_str
    let tail ← collectIncludedFields rest
    pure (s :: tail)

/-- `From<&s::Directive> for FulltextDefinition`, traced unwrap by unwrap from
the source (which assumes a previously validated directive). -/
def FulltextDefinition.fromDirective (directive : Directive) : RunResult String FulltextDefinition := do
  let nameValue ← unwrap (directive.argument "name")
  let name ← unwrap nameValue.as_str
  let algorithmValue ← unwrap (directive.argument "algorithm")
  let algorithmToken ← unwrap algorithmValue.as_enum
  let algorithm ← unwrapResult (FulltextAlgorithm.tryFrom algorithmToken)
  let language := ()
  let includeValue ← unwrap (directive.argument "include")
  let included_entity_list ← unwrap includeValue.as_list
  let firstEntity ← unwrap included_entity_list.head?
  let included_entity ← unwrap firstEntity.as_object
  let fieldsValue ← unwrap (included_entity.lookup "fields")
  let included_field_values ← unwrap fieldsValue.as_list
  let included_fields ← collectIncludedFields included_field_values
  pure { config := { language := language, algorithm := algorithm },
         included_fields := included_fields, name := name }

/-- `SchemaValidationError` exactly as declared in the fragment: a single
variant `A` whose thiserror message template is the fixed string
"Interface `` not defined" (the name slot between the backticks is empty). -/
inductive SchemaValidationError where
  | A
deriving DecidableEq, Repr

/-- The rendered display message of a `SchemaValidationError` (thiserror's
`#[error(...)]` template). -/
def SchemaValidationError.message : SchemaValidationError → String
  | .A => "Interface `` not defined"

/-- Substring test over the underlying character lists, used to state what a
rendered error message does or does not mention. -/
def containsSub (hay needle : List Char) : Bool :=
  (List.range (hay.length + 1)).any fun i => (hay.drop i).take needle.length == needle

/-- `ImportedType`: a single type from an import statement. Its source doc
comment states that a string `"Thing"` or an object `\x7bname: "Thing", as: "Stuff"\x7d`
are the recognized forms. -/
structure ImportedType where
  name : String
  typeAlias : String
  explicit : Bool
deriving DecidableEq, Repr

/-- `ImportedType::parse` exactly as written in the fragment: the body is the
literal `None`, for every input. -/
def ImportedType.parse (_type_import : Value) : Option ImportedType :=
  none

/-- `SchemaReference`: identifies a foreign subgraph deployment. In the
fragment the `subgraph` field is the unit stub, so no deployment id is held. -/
structure SchemaReference where
  subgraph : Unit
deriving DecidableEq, Repr

/-- `SchemaImportError`: the two declared import-resolution failure kinds. -/
inductive SchemaImportError where
  | ImportedSchemaNotFound (r : SchemaReference)
  | ImportedSubgraphNotFound (r : SchemaReference)
deriving DecidableEq, Repr

/-- `SchemaReference::parse` traced from the fragment: every branch of the
match, including the one that binds a string `id` field, returns `None`. -/
def SchemaReference.parse (value : Value) : Option SchemaReference :=
  match value with
  | .object map =>
    match map.lookup "id" with
    | some (.string _) => none
    | _ => none
  | _ => none

/-- GraphQL schema-language type reference (`s::Type`): named, list or
non-null. -/
inductive GqlType where
  | namedType (n : String)
  | listType (t : GqlType)
  | nonNullType (t : GqlType)
deriving DecidableEq, Repr

/-- Modelled from the spec: `TypeExt::get_base_type` (declared outside this
fragment) unwraps list/non-null wrappers down to the named base type. -/
def GqlType.get_base_type : GqlType → String
  | .namedType n => n
  | .listType t => t.get_base_type
  | .nonNullType t => t.get_base_type

/-- A field declaration of an object or interface type; only the attributes
this fragment consults (name and type) are modelled. -/
structure Field where
  name : String
  field_type : GqlType
deriving DecidableEq, Repr

/-- An object type declaration (`s::ObjectType`); only the attributes this
fragment consults (name and fields) are modelled. -/
structure ObjectType where
  name : String
  fields : List Field
deriving DecidableEq, Repr

/-- `ObjectType::new(name)` of the external declaration-model crate: a fresh
object type with the given name and all other attributes defaulted, in
particular an empty field list. -/
def ObjectType.new (name : String) : ObjectType :=
  { name := name, fields := [] }

/-- Modelled from the spec: `ObjectTypeExt::field` (declared outside this
fragment) looks up a field of the object type by name. -/
def ObjectType.field (self : ObjectType) (name : String) : Option Field :=
  self.fields.find? fun f => f.name == name

/-- An interface type declaration (`s::InterfaceType`); only name and fields
are modelled. -/
structure InterfaceType where
  name : String
  fields : List Field
deriving DecidableEq, Repr

/-- A top-level definition of the declaration tree; object and interface type
definitions are the kinds this fragment consults. -/
inductive TypeDefinition where
  | objectDef (o : ObjectType)
  | interfaceDef (i : InterfaceType)
  | otherDef (n : String)
deriving DecidableEq, Repr

/-- The declaration tree (`s::Document`). -/
structure Document where
  definitions : List TypeDefinition
deriving DecidableEq, Repr

/-- `Schema`: the validated declaration tree plus the two derived interface
indices (`BTreeMap`s modelled as association lists keyed by entity-type or
interface name). -/
structure Schema where
  document : Document
  interfaces_for_type : List (String × List InterfaceType)
  types_for_interface : List (String × List ObjectType)
deriving DecidableEq, Repr

/-- Modelled from the spec: the entity key handed to `Schema::id_value` by the
storage layer, carrying the entity type's name and the raw entity id. -/
structure EntityKey where
  subgraph_id : String
  entity_type : String
  entity_id : String
deriving DecidableEq, Repr

/-- A store value (`store::Value`); only the variants this fragment constructs
(string and bytes) are modelled. -/
inductive StoreValue where
  | string (s : String)
  | bytes (b : List Nat)
deriving DecidableEq, Repr

/-- `Schema::id_value` traced line by line from the fragment: it fabricates
`ObjectType::new("name")`, wraps it in `Ok(..).ok()`, runs the `ok_or_else`
unknown-entity-type error branch on that `Option`, unwraps `.field("id")` on
the fabricated type, and dispatches on the field's base type; the `Bytes` arm
is a `todo!()`. -/
def Schema.id_value (_self : Schema) (key : EntityKey) : RunResult String StoreValue :=
  let obj_type := ObjectType.new "name"
  let a : Option ObjectType := (Except.ok obj_type : Except String ObjectType).toOption
  match a with
  | none => .error ("Entity " ++ key.entity_type ++ "[" ++ key.entity_id ++
      "]: unknown entity type `" ++ key.entity_type ++ "`")
  | some t =>
    RunResult.bind (unwrap (t.field "id")) fun f =>
      match f.field_type.get_base_type with
      | "ID" => .ok (.string key.entity_id)
      | "String" => .ok (.string key.entity_id)
      | "Bytes" => .panic "not yet implemented"
      | s => .error ("Entity type " ++ key.entity_type ++ " uses illegal type " ++ s ++
          " for id column")

/-- `add_introspection_schema` exactly as written in the fragment: an empty
body, leaving the document unchanged. -/
def add_introspection_schema (schema : Document) : Document :=
  schema

/-- `ApiSchema`: a wrapped `Schema` plus the root types and the by-name object
type map (`HashMap` modelled as an association list). -/
structure ApiSchema where
  schema : Schema
  query_type : ObjectType
  subscription_type : Option ObjectType
  object_types : List (String × ObjectType)
deriving DecidableEq, Repr

/-- `ApiSchema::from_api_schema` traced from the fragment: it first runs the
no-op `add_introspection_schema` on the document, then evaluates the
`todo!()` bound to `query_type`, so it panics before anything is built. -/
def ApiSchema.from_api_schema (api_schema : Schema) : RunResult String ApiSchema :=
  let _api_schema : Schema :=
    { api_schema with document := add_introspection_schema api_schema.document }
  .panic "not yet implemented"

/-- `ApiSchema::document`: accessor returning the wrapped schema's document. -/
def ApiSchema.document (self : ApiSchema) : Document :=
  self.schema.document

/-- `ApiSchema::types_for_interface`: accessor returning the wrapped schema's
`types_for_interface` map. -/
def ApiSchema.types_for_interface (self : ApiSchema) : List (String × List ObjectType) :=
  self.schema.types_for_interface

/-- Modelled from the spec: the store capability's own lookup-failure kinds. -/
inductive StoreLookupError where
  | schemaNotFound
  | subgraphNotDeployed
deriving DecidableEq, Repr

/-- Modelled from the spec: the injected store capability used by import
resolution, mapping a deployment id to the subgraph's input schema or to a
store-level not-found error distinguishing a missing schema from a
never-deployed subgraph. -/
structure SubgraphStore where
  input_schema : String → Except StoreLookupError Schema

/-- `SchemaReference::resolve` traced from the fragment: the argument of
`store.input_schema(todo!())` is a `todo!()`, so the call panics before the
store is ever consulted (and the `map_err` that would collapse every store
error into `ImportedSchemaNotFound` is dead code). -/
def SchemaReference.resolve (_self : SchemaReference) (_store : SubgraphStore) :
    RunResult SchemaImportError Schema :=
  .panic "not yet implemented"

/-! Concrete inputs used to evaluate the embedded functions. -/

/-- A schema declaring `type User` whose `id` field has base type `String`. -/
def userType : ObjectType :=
  { name := "User", fields := [{ name := "id", field_type := .namedType "String" }] }

/-- The schema containing only `userType`. -/
def userSchema : Schema :=
  { document := { definitions := [.objectDef userType] },
    interfaces_for_type := [], types_for_interface := [] }

/-- An entity key for a `User` with raw id `"abc"`. -/
def userKey : EntityKey :=
  { subgraph_id := "subgraph0", entity_type := "User", entity_id := "abc" }

/-- A schema declaring `type Account` whose `id` field is declared `Int`. -/
def accountType : ObjectType :=
  { name := "Account", fields := [{ name := "id", field_type := .namedType "Int" }] }

/-- The schema containing only `accountType`. -/
def accountSchema : Schema :=
  { document := { definitions := [.objectDef accountType] },
    interfaces_for_type := [], types_for_interface := [] }

/-- An entity key for an `Account` with raw id `"1"`. -/
def accountKey : EntityKey :=
  { subgraph_id := "subgraph0", entity_type := "Account", entity_id := "1" }

/-- The validated fulltext directive
`@fulltext(name:"search", algorithm:rank, include:[\x7bfields:[\x7bname:"title"\x7d]\x7d])`. -/
def searchDirective : Directive :=
  { name := "fulltext",
    arguments :=
      [("name", .string "search"),
       ("algorithm", .enum "rank"),
       ("include", .list [.object [("fields", .list [.object [("name", .string "title")]])]])] }

/-- A store capability with no schema registered for any deployment id. -/
def missingSchemaStore : SubgraphStore :=
  { input_schema := fun _ => .error .schemaNotFound }

/-- A store capability that recognizes ids but reports the subgraph as never
deployed. -/
def notDeployedStore : SubgraphStore :=
  { input_schema := fun _ => .error .subgraphNotDeployed }

/-- A schema reference as built by `SchemaReference::new` on the unit stub. -/
def someReference : SchemaReference :=
  { subgraph := () }

/-- An object type literally named `Query`. -/
def queryType : ObjectType :=
  { name := "Query", fields := [{ name := "users", field_type := .namedType "User" }] }

/-- A schema containing the `Query` root type and `userType`. -/
def querySchema : Schema :=
  { document := { definitions := [.objectDef queryType, .objectDef userType] },
    interfaces_for_type := [], types_for_interface := [] }

/-! Theorems settling the claims. -/

/-- C1: refuted as stated — `Schema::id_value` never returns the string value
for a `String`-typed id (nor the illegal-id-type error for an `Int`-typed id):
it fabricates `ObjectType::new("name")`, whose field list is empty, and panics
unwrapping `.field("id")`, for every entity key. -/
theorem id_value_panics_on_every_key :
    userSchema.id_value userKey = .panic "called Option::unwrap on a None value" ∧
    userSchema.id_value userKey ≠ .ok (.string "abc") ∧
    accountSchema.id_value accountKey ≠
      .error "Entity type Account uses illegal type Int for id column" := by
  refine ⟨rfl, ?_, ?_⟩ <;> decide

/-- C2: refuted as stated — `ImportedType::parse` is the literal stub `None`:
it yields `none` for every input, in particular for the bare string `"Foo"`
and for the object `\x7bname:"Foo", as:"Bar"\x7d` that its own doc comment says it
recognizes. -/
theorem imported_type_parse_always_none :
    (∀ v : Value, ImportedType.parse v = none) ∧
    ImportedType.parse (.string "Foo") = none ∧
    ImportedType.parse (.object [("name", .string "Foo"), ("as", .string "Bar")]) = none :=
  ⟨fun _ => rfl, rfl, rfl⟩

/-- C3: refuted as stated — `SchemaReference::resolve` evaluates the `todo!()`
argument of `store.input_schema(todo!())` and panics before consulting the
store, for both store behaviours; in particular it never produces the
`ImportedSubgraphNotFound` error kind. -/
theorem resolve_panics_before_store_lookup :
    someReference.resolve missingSchemaStore = .panic "not yet implemented" ∧
    someReference.resolve notDeployedStore = .panic "not yet implemented" ∧
    ∀ (store : SubgraphStore) (r e : SchemaReference),
      r.resolve store ≠ .error (SchemaImportError.ImportedSubgraphNotFound e) :=
  ⟨rfl, rfl, fun _ _ _ h => nomatch h⟩

/-- C4: the fulltext extraction on the validated directive
`@fulltext(name:"search", algorithm:rank, include:[\x7bfields:[\x7bname:"title"\x7d]\x7d])`
yields name `"search"`, algorithm `Rank`, included fields `\x7b"title"\x7d` and the
unit placeholder language. -/
theorem fulltext_extract_search_rank :
    FulltextDefinition.fromDirective searchDirective =
      .ok { config := { language := (), algorithm := .Rank },
            included_fields := ["title"], name := "search" } := by
  decide

/-- C5: `FulltextAlgorithm::try_from` succeeds exactly on `"rank"` (yielding
`Rank`) and `"proximityRank"` (yielding `ProximityRank`), and on every other
token returns the error message naming the offending token and both legal
alternatives. -/
theorem fulltext_algorithm_try_from_total (s : String) :
    (FulltextAlgorithm.tryFrom s = .ok .Rank ↔ s = "rank") ∧
    (FulltextAlgorithm.tryFrom s = .ok .ProximityRank ↔ s = "proximityRank") ∧
    (s ≠ "rank" → s ≠ "proximityRank" →
      FulltextAlgorithm.tryFrom s = .error ("The provided fulltext search algorithm " ++ s ++
        " is invalid. It must be one of: rank, proximityRank")) := by
  unfold FulltextAlgorithm.tryFrom
  by_cases h1 : s = "rank"
  · subst h1; simp
  · by_cases h2 : s = "proximityRank"
    · subst h2; simp
    · simp [h1, h2]

/-- Witness for C5 at the concrete token `"median"`. -/
theorem fulltext_algorithm_try_from_total_witness :
    FulltextAlgorithm.tryFrom "median" =
      .error ("The provided fulltext search algorithm median is invalid. It must be one of: rank, proximityRank") :=
  (fulltext_algorithm_try_from_total "median").2.2 (by decide) (by decide)

/-- C6: refuted as stated — `SchemaReference::parse` returns `none` for every
input: even the branch that matches an object with a string `id` field is the
stub `None` (the `SchemaReference.subgraph` field is the unit stub and cannot
hold the id). -/
theorem schema_reference_parse_always_none :
    (∀ v : Value, SchemaReference.parse v = none) ∧
    SchemaReference.parse (.object [("id", .string "QmExampleDeployment")]) = none := by
  refine ⟨fun v => ?_, rfl⟩
  cases v <;> first
    | rfl
    | (unfold SchemaReference.parse
       split <;> first
         | rfl
         | (split <;> rfl))

/-- C7: refuted as stated — the only interface-not-found validation error
variant renders the fixed message "Interface `` not defined", which does not
contain the name of any missing interface (here `MyInterface`). -/
theorem validation_error_message_fixed :
    (∀ e : SchemaValidationError, e.message = "Interface `` not defined") ∧
    containsSub ("Interface `` not defined".data) ("MyInterface".data) = false :=
  ⟨fun e => by cases e; rfl, by decide⟩

/-- C8: refuted as stated — `ApiSchema::from_api_schema` panics at the
`todo!()` bound to `query_type`, so no `ApiSchema` is ever constructed; and
`add_introspection_schema` is a no-op, so no `__schema`/`__type` introspection
fields are added to the `Query` type. -/
theorem from_api_schema_panics :
    ApiSchema.from_api_schema querySchema = .panic "not yet implemented" ∧
    add_introspection_schema querySchema.document = querySchema.document :=
  ⟨rfl, rfl⟩

/-- C9: `Schema::id_value` never consults the schema it is called on — any two
schemas give the same result on every key; indeed the result is always the
unwrap panic, so the unknown-entity-type error branch is unreachable. -/
theorem id_value_ignores_schema :
    (∀ (s1 s2 : Schema) (key : EntityKey), s1.id_value key = s2.id_value key) ∧
    (∀ (s : Schema) (key : EntityKey),
      s.id_value key = .panic "called Option::unwrap on a None value") :=
  ⟨fun _ _ _ => rfl, fun _ _ => rfl⟩

/-- C10: the `ApiSchema` accessors are pure pass-throughs to the wrapped
`Schema`: `document()` is the wrapped schema's document and
`types_for_interface()` is its `types_for_interface` map, unchanged (the
`schema()` accessor is the `schema` projection itself). -/
theorem api_schema_accessors_pass_through :
    ∀ api : ApiSchema, api.document = api.schema.document ∧
      api.types_for_interface = api.schema.types_for_interface :=
  fun _ => ⟨rfl, rfl⟩

end SchemaRs
